import Mathlib

/-!
Verification of the plotrs scatter-plot renderer.

Shallow embedding of the quadrant classifier, the axis-geometry engine,
the drawing primitives, the best-fit sampler, the legend builder and the
glyph measurement helpers, together with theorems settling the spec's
claims about them.

Conventions: Rust `u32` values are modelled as `Nat` (with explicit
wrap-around `% 2^32` where the code relies on release-mode wrapping),
`i32` as `Int`, `f32` arithmetic as `Rat` where the inputs make the
float computation exact.  A Rust function that can terminate the process
or hit an arithmetic-overflow abort is modelled as returning `Option`
or `Except`, with `none` / `.error` marking the aborting executions.
-/

/-- The nine quadrant layouts, mirroring `enum Quadrants` in
`src/canvas/quadrants.rs`. -/
inductive Quadrants
  | RightPair
  | LeftPair
  | TopPair
  | BottomPair
  | AllQuadrants
  | TopRight
  | TopLeft
  | BottomRight
  | BottomLeft
deriving DecidableEq, Repr

/-- The two kinds of abort reachable in `get_quadrants`:
`invalidSignum` for the catch-all arms on a `signum()` result, and
`invalidData` for the two explicit configuration aborts in the
`x minimum is zero / y minimum is zero` branch. -/
inductive QuadrantsFatal
  | invalidSignum
  | invalidData
deriving DecidableEq, Repr

/-- Embedding of `get_quadrants` (src/canvas/quadrants.rs, lines 25-136).
Each Rust `match v.signum() { 1 => .., 0 => .., -1 => .., _ => panic }`
becomes an if-chain on `Int.sign` with the catch-all mapped to
`.error .invalidSignum`. -/
def get_quadrants (min_xy max_xy : Int × Int) : Except QuadrantsFatal Quadrants :=
  if min_xy.1.sign = 1 then
    if min_xy.2.sign = 1 then .ok .TopRight
    else if min_xy.2.sign = 0 then .ok .TopRight
    else if min_xy.2.sign = -1 then
      if max_xy.2.sign = 1 then .ok .RightPair
      else if max_xy.2.sign = 0 then .ok .BottomRight
      else if max_xy.2.sign = -1 then .ok .BottomRight
      else .error .invalidSignum
    else .error .invalidSignum
  else if min_xy.1.sign = 0 then
    if min_xy.2.sign = 1 then .ok .TopRight
    else if min_xy.2.sign = 0 then
      if max_xy.2.sign = 1 then .ok .TopRight
      else if max_xy.2.sign = 0 then .error .invalidData
      else if max_xy.2.sign = -1 then .error .invalidData
      else .error .invalidSignum
    else if min_xy.2.sign = -1 then
      if max_xy.2.sign = 1 then .ok .RightPair
      else if max_xy.2.sign = 0 then .ok .BottomRight
      else if max_xy.2.sign = -1 then .ok .BottomRight
      else .error .invalidSignum
    else .error .invalidSignum
  else if min_xy.1.sign = -1 then
    if max_xy.1.sign = 1 then
      if min_xy.2.sign = 1 then .ok .TopPair
      else if min_xy.2.sign = 0 then .ok .TopPair
      else if min_xy.2.sign = -1 then
        if max_xy.2.sign = 1 then .ok .AllQuadrants
        else if max_xy.2.sign = 0 then .ok .BottomPair
        else if max_xy.2.sign = -1 then .ok .BottomPair
        else .error .invalidSignum
      else .error .invalidSignum
    else if max_xy.1.sign = 0 then
      if min_xy.2.sign = 1 then .ok .TopLeft
      else if min_xy.2.sign = 0 then .ok .TopLeft
      else if min_xy.2.sign = -1 then
        if max_xy.2.sign = 1 then .ok .LeftPair
        else if max_xy.2.sign = 0 then .ok .BottomLeft
        else if max_xy.2.sign = -1 then .ok .BottomLeft
        else .error .invalidSignum
      else .error .invalidSignum
    else if max_xy.1.sign = -1 then
      if min_xy.2.sign = 1 then .ok .TopLeft
      else if min_xy.2.sign = 0 then .ok .TopLeft
      else if min_xy.2.sign = -1 then
        if max_xy.2.sign = 1 then .ok .LeftPair
        else if max_xy.2.sign = 0 then .ok .BottomLeft
        else if max_xy.2.sign = -1 then .ok .BottomLeft
        else .error .invalidSignum
      else .error .invalidSignum
    else .error .invalidSignum
  else .error .invalidSignum

lemma int_sign_cases (a : Int) :
    (a.sign = 1 ∧ 0 < a) ∨ (a.sign = 0 ∧ a = 0) ∨ (a.sign = -1 ∧ a < 0) := by
  rcases a with (_ | n) | n
  · exact Or.inr (Or.inl ⟨rfl, rfl⟩)
  · exact Or.inl ⟨rfl, Int.ofNat_pos.mpr (Nat.succ_pos n)⟩
  · exact Or.inr (Or.inr ⟨rfl, Int.negSucc_lt_zero n⟩)

lemma gq_no_invalid_signum (a b c d : Int) :
    get_quadrants (a, b) (c, d) ≠ .error .invalidSignum := by
  rcases int_sign_cases a with ⟨h1, h1a⟩ | ⟨h1, h1a⟩ | ⟨h1, h1a⟩ <;>
    rcases int_sign_cases b with ⟨h2, h2a⟩ | ⟨h2, h2a⟩ | ⟨h2, h2a⟩ <;>
    rcases int_sign_cases c with ⟨h3, h3a⟩ | ⟨h3, h3a⟩ | ⟨h3, h3a⟩ <;>
    rcases int_sign_cases d with ⟨h4, h4a⟩ | ⟨h4, h4a⟩ | ⟨h4, h4a⟩ <;>
    simp [get_quadrants, h1, h2, h3, h4]

lemma gq_error_iff (a b c d : Int) (hy : b ≤ d) :
    get_quadrants (a, b) (c, d) = .error .invalidData ↔ (a = 0 ∧ b = 0 ∧ d = 0) := by
  rcases int_sign_cases a with ⟨h1, h1a⟩ | ⟨h1, h1a⟩ | ⟨h1, h1a⟩ <;>
    rcases int_sign_cases b with ⟨h2, h2a⟩ | ⟨h2, h2a⟩ | ⟨h2, h2a⟩ <;>
    rcases int_sign_cases c with ⟨h3, h3a⟩ | ⟨h3, h3a⟩ | ⟨h3, h3a⟩ <;>
    rcases int_sign_cases d with ⟨h4, h4a⟩ | ⟨h4, h4a⟩ | ⟨h4, h4a⟩ <;>
    simp [get_quadrants, h1, h2, h3, h4] <;> omega

lemma gq_total (a b c d : Int) (_hx : a ≤ c) (hy : b ≤ d)
    (hdeg : ¬(a = 0 ∧ b = 0 ∧ d = 0)) :
    ∃ q, get_quadrants (a, b) (c, d) = .ok q := by
  cases hq : get_quadrants (a, b) (c, d) with
  | ok q => exact ⟨q, rfl⟩
  | error e =>
    cases e with
    | invalidSignum => exact absurd hq (gq_no_invalid_signum a b c d)
    | invalidData => exact absurd ((gq_error_iff a b c d hy).mp hq) hdeg

/-- Claim C1 (counterexample): the classifier is not total on
componentwise-ordered bounds.  At `min = (0, 0)`, `max = (1, 0)` —
which satisfy `min_x ≤ max_x` and `min_y ≤ max_y` — `get_quadrants`
hits the explicit configuration abort instead of returning a
`Quadrants` variant. -/
theorem get_quadrants_zero_y_counterexample :
    get_quadrants (0, 0) (1, 0) = .error .invalidData := by rfl

/-- Claim C1 (amended): on componentwise-ordered bounds,
`get_quadrants` returns exactly one `Quadrants` variant except when
`min_x = 0` and `min_y = max_y = 0`, where it aborts with a
configuration error; the catch-all `Invalid signum` arms are never
reached, and the three concrete classifications
`(-1,-1)-(1,1) = AllQuadrants`, `(1,1)-(2,2) = TopRight` and
`(-1,0)-(1,1) = TopPair` hold. -/
theorem get_quadrants_total_amended :
    (∀ a b c d : Int, a ≤ c → b ≤ d → ¬(a = 0 ∧ b = 0 ∧ d = 0) →
      ∃ q, get_quadrants (a, b) (c, d) = .ok q)
    ∧ get_quadrants (-1, -1) (1, 1) = .ok .AllQuadrants
    ∧ get_quadrants (1, 1) (2, 2) = .ok .TopRight
    ∧ get_quadrants (-1, 0) (1, 1) = .ok .TopPair
    ∧ (∀ a b c d : Int, get_quadrants (a, b) (c, d) ≠ .error .invalidSignum) :=
  ⟨gq_total, by rfl, by rfl, by rfl, gq_no_invalid_signum⟩

/-- Claim C1 witness: the totality part of the amended claim applied
at the concrete ordered, non-degenerate bounds `(5, -2)-(7, 3)`. -/
theorem get_quadrants_total_amended_witness :
    ∃ q, get_quadrants (5, -2) (7, 3) = .ok q :=
  get_quadrants_total_amended.1 5 (-2) 7 3 (by decide) (by decide) (by decide)

/-- Claim C4 (counterexample): with the y bounds exactly zero on both
ends and the x bounds strictly positive — the configuration the claim
says must panic — `get_quadrants` returns `TopRight` instead of
aborting. -/
theorem get_quadrants_zero_axis_counterexample :
    get_quadrants (2, 0) (3, 0) = .ok .TopRight := by rfl

/-- Claim C4 (amended): on componentwise-ordered bounds the
configuration abort happens exactly when `min_x = 0` and
`min_y = max_y = 0`; when one axis is zero on both ends while the other
is strictly signed, a variant is returned (`TopLeft` for negative x with
zero y, `TopRight` for zero x with positive y, `BottomRight` for zero x
with negative y). -/
theorem get_quadrants_abort_iff_amended :
    (∀ a b c d : Int, a ≤ c → b ≤ d →
      (get_quadrants (a, b) (c, d) = .error .invalidData ↔ (a = 0 ∧ b = 0 ∧ d = 0)))
    ∧ get_quadrants (-3, 0) (-2, 0) = .ok .TopLeft
    ∧ get_quadrants (0, 2) (0, 3) = .ok .TopRight
    ∧ get_quadrants (0, -3) (0, -2) = .ok .BottomRight :=
  ⟨fun a b c d _ hy => gq_error_iff a b c d hy, by rfl, by rfl, by rfl⟩

/-- Claim C4 witness: the abort characterisation applied at the
concrete input `(0, 0)-(4, 0)`. -/
theorem get_quadrants_abort_iff_amended_witness :
    get_quadrants (0, 0) (4, 0) = .error .invalidData :=
  (get_quadrants_abort_iff_amended.1 0 0 4 0 (by decide) (by decide)).mpr
    ⟨rfl, rfl, rfl⟩

/-- Embedding of `get_x_axis_pixel_length` (src/canvas/axes/axis_x.rs,
lines 124-130): `max_pixel.overflowing_sub(min_pixel)` with a panic on
overflow, modelled as `none`. -/
def get_x_axis_pixel_length (min_pixel max_pixel : Nat) : Option Nat :=
  if max_pixel < min_pixel then none else some (max_pixel - min_pixel)

/-- Embedding of `get_y_axis_pixel_length` (src/canvas/axes/axis_y.rs,
lines 118-124), identical in behaviour to the x variant. -/
def get_y_axis_pixel_length (min_pixel max_pixel : Nat) : Option Nat :=
  if max_pixel < min_pixel then none else some (max_pixel - min_pixel)

/-- Runs a `for i in 0..bound { if cond(i) { break } }` search where
evaluating the condition can abort (the pixel-length overflow panic).
`none` = the condition evaluation aborted; `some (some i)` = first index
whose condition held; `some none` = the range was exhausted without a
hit. `i` is the next index, `fuel` the remaining iterations. -/
def search_break (cond : Nat → Option Bool) : Nat → Nat → Option (Option Nat)
  | _, 0 => some none
  | i, fuel + 1 =>
    match cond i with
    | none => none
    | some true => some (some i)
    | some false => search_break cond (i + 1) fuel

/-- `for i in 0..bound` with an early `break`, starting at index 0. -/
def for_range_break (bound : Nat) (cond : Nat → Option Bool) : Option (Option Nat) :=
  search_break cond 0 bound

/-- Embedding of `get_xy_axis_pixel_min_max` (src/canvas/axes/mod.rs,
lines 18-295).  Returns `((min_x, min_y), (max_x, max_y))` in canvas
pixel coordinates exactly as the source does (note the source's `min`
tuple carries the *bottom-left* corner, so its second component is the
larger y pixel).  `none` models the panic on pixel-length overflow
inside a search loop.  The `u32` subtractions `canvas − consumed` are
hypothesised in the theorems not to underflow (the non-degenerate axis
region assumption). -/
def get_xy_axis_pixel_min_max (quadrants : Quadrants)
    (vertical_pixels_from_top horizontal_pixels_from_right
     vertical_pixels_from_bottom horizontal_pixels_from_left : Nat)
    (canvas_size : Nat × Nat) (x_axis_resolution y_axis_resolution : Nat) :
    Option ((Nat × Nat) × (Nat × Nat)) :=
  let minimum_possible_x := horizontal_pixels_from_left
  let maximum_possible_x := canvas_size.1 - horizontal_pixels_from_right
  let minimum_possible_y := vertical_pixels_from_top
  let maximum_possible_y := canvas_size.2 - vertical_pixels_from_bottom
  match quadrants with
  | .RightPair =>
    match for_range_break maximum_possible_x (fun i =>
        (get_x_axis_pixel_length minimum_possible_x (maximum_possible_x - i)).map
          (fun l => l % x_axis_resolution == 0)) with
    | none => none
    | some rx =>
      let x := match rx with | some i => maximum_possible_x - i | none => maximum_possible_x
      match for_range_break minimum_possible_y (fun i =>
          (get_y_axis_pixel_length (minimum_possible_y + i) maximum_possible_y).map
            (fun l => l / 2 % y_axis_resolution == 0 && l / 2 % 2 == 0)) with
      | none => none
      | some ry =>
        let y1 := match ry with | some i => minimum_possible_y + i | none => minimum_possible_y
        some ((minimum_possible_x, maximum_possible_y), (x, y1))
  | .LeftPair =>
    match for_range_break maximum_possible_x (fun i =>
        (get_x_axis_pixel_length (minimum_possible_x + i) minimum_possible_x).map
          (fun l => l % x_axis_resolution == 0)) with
    | none => none
    | some rx =>
      let x := match rx with | some i => minimum_possible_x + i | none => minimum_possible_x
      match for_range_break minimum_possible_y (fun i =>
          (get_y_axis_pixel_length (minimum_possible_y + i) maximum_possible_y).map
            (fun l => l / 2 % y_axis_resolution == 0 && l / 2 % 2 == 0)) with
      | none => none
      | some ry =>
        let y1 := match ry with | some i => minimum_possible_y + i | none => minimum_possible_y
        some ((x, maximum_possible_y), (maximum_possible_x, y1))
  | .TopPair =>
    match for_range_break maximum_possible_x (fun i =>
        (get_x_axis_pixel_length (minimum_possible_x + i) maximum_possible_x).map
          (fun l => l / 2 % x_axis_resolution == 0)) with
    | none => none
    | some rx =>
      let x0 := match rx with | some i => minimum_possible_x + i | none => minimum_possible_x
      match for_range_break minimum_possible_y (fun i =>
          (get_y_axis_pixel_length (minimum_possible_y + i) maximum_possible_y).map
            (fun l => l % y_axis_resolution == 0)) with
      | none => none
      | some ry =>
        let y := match ry with | some i => minimum_possible_y + i | none => minimum_possible_y
        some ((x0, maximum_possible_y), (maximum_possible_x, y))
  | .BottomPair =>
    match for_range_break maximum_possible_x (fun i =>
        (get_x_axis_pixel_length (minimum_possible_x + i) maximum_possible_x).map
          (fun l => l / 2 % x_axis_resolution == 0)) with
    | none => none
    | some rx =>
      let x0 := match rx with | some i => minimum_possible_x + i | none => minimum_possible_x
      match for_range_break maximum_possible_y (fun i =>
          (get_y_axis_pixel_length (minimum_possible_y + i) maximum_possible_y).map
            (fun l => l % y_axis_resolution == 0)) with
      | none => none
      | some ry =>
        let y := match ry with | some i => minimum_possible_y + i | none => minimum_possible_y
        some ((x0, maximum_possible_y), (maximum_possible_x, y))
  | .AllQuadrants =>
    match for_range_break maximum_possible_x (fun i =>
        (get_x_axis_pixel_length (minimum_possible_x + i) maximum_possible_x).map
          (fun l => l / 2 % x_axis_resolution == 0)) with
    | none => none
    | some rx =>
      let x0 := match rx with | some i => minimum_possible_x + i | none => minimum_possible_x
      match for_range_break minimum_possible_y (fun i =>
          (get_y_axis_pixel_length (minimum_possible_y + i) maximum_possible_y).map
            (fun l => l / 2 % y_axis_resolution == 0 && l / 2 % 2 == 0)) with
      | none => none
      | some ry =>
        let y1 := match ry with | some i => minimum_possible_y + i | none => minimum_possible_y
        some ((x0, maximum_possible_y), (maximum_possible_x, y1))
  | .TopRight =>
    match for_range_break maximum_possible_x (fun i =>
        (get_x_axis_pixel_length minimum_possible_x (maximum_possible_x - i)).map
          (fun l => l % x_axis_resolution == 0)) with
    | none => none
    | some rx =>
      let x := match rx with | some i => maximum_possible_x - i | none => maximum_possible_x
      match for_range_break minimum_possible_y (fun i =>
          (get_y_axis_pixel_length (minimum_possible_y + i) maximum_possible_y).map
            (fun l => l % y_axis_resolution == 0)) with
      | none => none
      | some ry =>
        let y := match ry with | some i => minimum_possible_y + i | none => minimum_possible_y
        some ((minimum_possible_x, maximum_possible_y), (x, y))
  | .TopLeft =>
    match for_range_break maximum_possible_x (fun i =>
        (get_x_axis_pixel_length (minimum_possible_x + i) minimum_possible_x).map
          (fun l => l % x_axis_resolution == 0)) with
    | none => none
    | some rx =>
      let x := match rx with | some i => minimum_possible_x + i | none => minimum_possible_x
      match for_range_break minimum_possible_y (fun i =>
          (get_y_axis_pixel_length (minimum_possible_y + i) maximum_possible_y).map
            (fun l => l % y_axis_resolution == 0)) with
      | none => none
      | some ry =>
        let y := match ry with | some i => minimum_possible_y + i | none => minimum_possible_y
        some ((x, maximum_possible_y), (maximum_possible_x, y))
  | .BottomRight =>
    match for_range_break maximum_possible_x (fun i =>
        (get_x_axis_pixel_length minimum_possible_x (maximum_possible_x - i)).map
          (fun l => l % x_axis_resolution == 0)) with
    | none => none
    | some rx =>
      let x := match rx with | some i => maximum_possible_x - i | none => maximum_possible_x
      match for_range_break maximum_possible_y (fun i =>
          (get_y_axis_pixel_length (minimum_possible_y + i) maximum_possible_y).map
            (fun l => l % y_axis_resolution == 0)) with
      | none => none
      | some ry =>
        let y := match ry with | some i => minimum_possible_y + i | none => minimum_possible_y
        some ((minimum_possible_x, maximum_possible_y), (x, y))
  | .BottomLeft =>
    match for_range_break maximum_possible_x (fun i =>
        (get_x_axis_pixel_length (minimum_possible_x + i) minimum_possible_x).map
          (fun l => l % x_axis_resolution == 0)) with
    | none => none
    | some rx =>
      let x := match rx with | some i => minimum_possible_x + i | none => minimum_possible_x
      match for_range_break maximum_possible_y (fun i =>
          (get_y_axis_pixel_length (minimum_possible_y + i) maximum_possible_y).map
            (fun l => l % y_axis_resolution == 0)) with
      | none => none
      | some ry =>
        let y := match ry with | some i => minimum_possible_y + i | none => minimum_possible_y
        some ((x, maximum_possible_y), (maximum_possible_x, y))

/-- Claim C2 (the code at the failing input): for the `LeftPair`
quadrant with left margin 10, right margin 5, canvas width 30 and
x resolution 7, the x search loop calls
`get_x_axis_pixel_length(x + i, minimum_possible_x)` — arguments
swapped, the second should be `maximum_possible_x` — so it breaks at
`i = 0` (length `min − min = 0` is divisible by anything) and the x
boundary is returned unadjusted at 10.  The resulting x-axis length
`25 − 10 = 15` is not a multiple of the resolution 7, yet an aligned
boundary existed inside the search range (`i = 1`, boundary 11, length
`25 − 11 = 14 = 2·7`), so the claim's only allowed exception (a fallback
with no aligned boundary in range) does not apply. -/
theorem axis_alignment_left_pair_bug :
    get_xy_axis_pixel_min_max .LeftPair 10 5 10 10 (30, 100) 7 1 =
      some ((10, 90), (25, 10))
    ∧ (25 - 10) % 7 ≠ 0
    ∧ get_x_axis_pixel_length (10 + 1) 25 = some 14 ∧ 14 % 7 = 0 ∧ 1 < 25 := by
  refine ⟨by rfl, by decide, by rfl, by decide, by decide⟩

/-- Modulus of Rust `u32` arithmetic. -/
def U32_MOD : Nat := 2 ^ 32

/-- Wrapping `u32` addition (release-profile semantics of `a + b`). -/
def u32_add (a b : Nat) : Nat := (a + b) % U32_MOD

/-- Wrapping `u32` subtraction (release-profile semantics of `a - b`). -/
def u32_sub (a b : Nat) : Nat := (a + (U32_MOD - b % U32_MOD)) % U32_MOD

/-- The symbol shapes of `enum DataSymbol` (src/canvas/plot.rs). -/
inductive DataSymbol
  | Cross
  | Circle
  | Triangle
  | Square
  | Point
deriving DecidableEq, Repr

/-- `lower..=upper` as a list (empty when `upper < lower`, as in Rust). -/
def natRangeIncl (a b : Nat) : List Nat := (List.range (b + 1 - a)).map (a + ·)

/-- Embedding of the `DataSymbol::Cross` arm of `find_pixels`
(src/canvas/plot.rs, lines 24-58), with every `u32` add/subtract
wrapping. -/
def find_pixels_cross (origin : Nat × Nat) (thickness radius : Nat) : List (Nat × Nat) :=
  let length := if u32_add radius 1 % 2 == 1 then u32_add radius 2 else u32_add radius 1
  origin :: (List.range length).bind (fun i =>
    (u32_add origin.1 i, origin.2) ::
      (List.range (thickness + 1)).bind (fun n =>
        [(u32_add origin.1 i, u32_add origin.2 n), (u32_add origin.1 i, u32_sub origin.2 n)])
    ++ (u32_sub origin.1 i, origin.2) ::
      (List.range (thickness + 1)).bind (fun n =>
        [(u32_sub origin.1 i, u32_add origin.2 n), (u32_sub origin.1 i, u32_sub origin.2 n)])
    ++ (origin.1, u32_add origin.2 i) ::
      (List.range (thickness + 1)).bind (fun n =>
        [(u32_add origin.1 n, u32_add origin.2 i), (u32_sub origin.1 n, u32_add origin.2 i)])
    ++ (origin.1, u32_sub origin.2 i) ::
      (List.range (thickness + 1)).bind (fun n =>
        [(u32_add origin.1 n, u32_sub origin.2 i), (u32_sub origin.1 n, u32_sub origin.2 i)]))

/-- Embedding of the `DataSymbol::Square` arm of `find_pixels`
(src/canvas/plot.rs, lines 164-192). -/
def find_pixels_square (origin : Nat × Nat) (thickness radius : Nat) : List (Nat × Nat) :=
  let half_side_length :=
    if u32_add radius 1 % 2 == 1 then u32_add radius 2 else u32_add radius 1
  origin :: (List.range half_side_length).bind (fun i =>
    (List.range (thickness + 1)).bind (fun n =>
      [(u32_add (u32_add origin.1 i) n, u32_sub (u32_sub origin.2 radius) n),
       (u32_sub (u32_sub origin.1 i) n, u32_sub (u32_sub origin.2 radius) n),
       (u32_add (u32_add origin.1 i) n, u32_add (u32_add origin.2 radius) n),
       (u32_sub (u32_sub origin.1 i) n, u32_add (u32_add origin.2 radius) n),
       (u32_sub (u32_sub origin.1 radius) n, u32_sub (u32_sub origin.2 i) n),
       (u32_sub (u32_sub origin.1 radius) n, u32_add (u32_add origin.2 i) n),
       (u32_add (u32_add origin.1 radius) n, u32_sub (u32_sub origin.2 i) n),
       (u32_add (u32_add origin.1 radius) n, u32_add (u32_add origin.2 i) n)]))

/-- Embedding of `DataSymbol::find_pixels` (src/canvas/plot.rs, lines
21-199).  The `Circle` and `Triangle` arms sample their outlines with
`f32` trigonometry; those float-generated offset lists are passed in as
the `circle_pixels` / `triangle_pixels` parameters (each arm pushes the
origin first, as in the source). -/
def find_pixels
    (circle_pixels triangle_pixels : (Nat × Nat) → Nat → Nat → List (Nat × Nat)) :
    DataSymbol → (Nat × Nat) → Nat → Nat → List (Nat × Nat)
  | .Cross, origin, thickness, radius => find_pixels_cross origin thickness radius
  | .Circle, origin, thickness, radius => origin :: circle_pixels origin thickness radius
  | .Triangle, origin, thickness, radius => origin :: triangle_pixels origin thickness radius
  | .Square, origin, thickness, radius => find_pixels_square origin thickness radius
  | .Point, origin, _, _ => [origin]

/-- One canvas pixel write.  `checked = true` models a write through
`get_pixel_mut_checked` (skipped with a warning when out of bounds);
`checked = false` models a write through `put_pixel` (which panics when
out of bounds). -/
structure PixelWrite where
  x : Nat
  y : Nat
  checked : Bool
deriving DecidableEq, Repr

/-- Writes issued through the bounds-checked API. -/
def checked_writes (ps : List (Nat × Nat)) : List PixelWrite :=
  ps.map (fun p => ⟨p.1, p.2, true⟩)

/-- Pixel coordinates touched by the x-uncertainty error bar of
`DataPoint::draw_point` (src/canvas/plot.rs, lines 267-328): the
horizontal bar from the lower to the upper limit, then the four wing
pixels per step.  All of these go through `get_pixel_mut_checked`. -/
def ux_bar_pixels (center : Nat × Nat) (lower_limit upper_limit : Nat) :
    List (Nat × Nat) :=
  (natRangeIncl lower_limit upper_limit).map (fun px => (px, center.2))
  ++ (List.range ((upper_limit - lower_limit) / 4 + 1)).bind (fun py =>
      [(upper_limit, u32_add center.2 py), (lower_limit, u32_add center.2 py),
       (upper_limit, u32_sub center.2 py), (lower_limit, u32_sub center.2 py)])

/-- Pixel coordinates touched by the y-uncertainty error bar of
`DataPoint::draw_point` (src/canvas/plot.rs, lines 329-390). -/
def uy_bar_pixels (center : Nat × Nat) (lower_limit upper_limit : Nat) :
    List (Nat × Nat) :=
  (natRangeIncl lower_limit upper_limit).map (fun py => (center.1, py))
  ++ (List.range ((upper_limit - lower_limit) / 4 + 1)).bind (fun px =>
      [(u32_sub center.1 px, upper_limit), (u32_sub center.1 px, lower_limit),
       (u32_add center.1 px, upper_limit), (u32_add center.1 px, lower_limit)])

/-- The full write list of `DataPoint::draw_point` (src/canvas/plot.rs,
lines 223-391): the symbol's pixel footprint, then the optional x and y
error bars.  Every write in the source goes through
`get_pixel_mut_checked`, hence `checked_writes` throughout.  The mapped
pixel centre and the error-bar pixel limits are `f32`-derived inputs and
are taken as parameters. -/
def draw_point_writes (pixels_in_shape : List (Nat × Nat)) (center : Nat × Nat)
    (ux_limits uy_limits : Option (Nat × Nat)) : List PixelWrite :=
  checked_writes pixels_in_shape
  ++ (match ux_limits with
      | none => []
      | some (lo, hi) => checked_writes (ux_bar_pixels center lo hi))
  ++ (match uy_limits with
      | none => []
      | some (lo, hi) => checked_writes (uy_bar_pixels center lo hi))

/-- Write list of `draw_x_axis` (src/canvas/axes/axis_x.rs, lines
133-148): origin to max, then min to origin, all through the unchecked
`put_pixel`. -/
def draw_x_axis_writes (axis_min_pixel axis_origin_pixel axis_max_pixel : Nat × Nat) :
    List PixelWrite :=
  (natRangeIncl axis_origin_pixel.1 axis_max_pixel.1).map
    (fun px => ⟨px, axis_origin_pixel.2, false⟩)
  ++ (natRangeIncl axis_min_pixel.1 axis_origin_pixel.1).map
    (fun px => ⟨px, axis_origin_pixel.2, false⟩)

/-- Write list of `draw_y_axis` (src/canvas/axes/axis_y.rs, lines
126-141): max to origin, then origin to min, all through the unchecked
`put_pixel`. -/
def draw_y_axis_writes (axis_min_pixel axis_origin_pixel axis_max_pixel : Nat × Nat) :
    List PixelWrite :=
  (natRangeIncl axis_max_pixel.2 axis_origin_pixel.2).map
    (fun py => ⟨axis_origin_pixel.1, py, false⟩)
  ++ (natRangeIncl axis_origin_pixel.2 axis_min_pixel.2).map
    (fun py => ⟨axis_origin_pixel.1, py, false⟩)

/-- Does one write abort the render?  Only an *unchecked* write with a
coordinate outside the `width × height` canvas does (`put_pixel`
panics there; `get_pixel_mut_checked` only logs a warning). -/
def write_aborts (width height : Nat) (pw : PixelWrite) : Bool :=
  !pw.checked && (decide (width ≤ pw.x) || decide (height ≤ pw.y))

/-- Does any write in the list abort the render? -/
def writes_abort (width height : Nat) (ws : List PixelWrite) : Bool :=
  ws.any (write_aborts width height)

lemma checked_writes_never_abort (width height : Nat) (l : List (Nat × Nat)) :
    writes_abort width height (checked_writes l) = false := by
  rw [writes_abort, List.any_eq_false]
  intro pw hpw
  simp only [checked_writes, List.mem_map] at hpw
  obtain ⟨p, _, rfl⟩ := hpw
  simp [write_aborts]

lemma writes_abort_append (width height : Nat) (a b : List PixelWrite) :
    writes_abort width height (a ++ b) =
      (writes_abort width height a || writes_abort width height b) := by
  simp [writes_abort]

lemma writes_abort_nil (width height : Nat) : writes_abort width height [] = false := rfl

/-- Claim C3 (counterexample): drawing is not abort-free.  `draw_x_axis`
writes through the unchecked `put_pixel`; on a 5×5 canvas with
`axis_max_pixel = (10, 3)` the run from the origin column 2 to column 10
leaves the canvas and the render aborts instead of skipping the write. -/
theorem draw_x_axis_abort_counterexample :
    writes_abort 5 5 (draw_x_axis_writes (0, 3) (2, 3) (10, 3)) = true := by rfl

/-- Claim C3 (amended): `DataPoint::draw_point` never aborts — all of
its pixel writes (symbol footprint from `find_pixels`, error-bar runs
and wings) go through the bounds-checked `get_pixel_mut_checked` and an
out-of-bounds write is skipped with a warning, for every symbol pixel
list, centre and error-bar limits; unsigned arithmetic such as
`origin.0 - i` near the canvas edge wraps (release semantics) — e.g. a
`Cross` of radius 1 at the origin contains the wrapped coordinate
`(2^32 − 1, 0)`, which is then skipped, not crashed on.  Axis, grid and
scale-marker drawing, by contrast, write through the unchecked
`put_pixel` and abort when a coordinate falls outside the canvas, as
`draw_y_axis` does here on a 4×4 canvas. -/
theorem draw_point_never_aborts_amended :
    (∀ (width height : Nat) (pixels_in_shape : List (Nat × Nat)) (center : Nat × Nat)
        (ux_limits uy_limits : Option (Nat × Nat)),
      writes_abort width height
        (draw_point_writes pixels_in_shape center ux_limits uy_limits) = false)
    ∧ (U32_MOD - 1, 0) ∈ find_pixels_cross (0, 0) 0 1
    ∧ writes_abort 4 4 (draw_y_axis_writes (1, 9) (1, 2) (1, 0)) = true := by
  refine ⟨?_, by decide, by rfl⟩
  intro width height pixels_in_shape center ux_limits uy_limits
  rcases ux_limits with _ | ⟨lo, hi⟩ <;> rcases uy_limits with _ | ⟨lo', hi'⟩ <;>
    simp only [draw_point_writes, writes_abort_append, checked_writes_never_abort,
      writes_abort_nil, Bool.or_false, Bool.false_or, Bool.or_self]

/-- The candidate minor-tick counts in priority order, `vec![9, 4, 3, 2, 1]`
(src/canvas/axes/axis_x.rs line 388, src/canvas/axes/axis_y.rs line 367). -/
def marker_count : List Nat := [9, 4, 3, 2, 1]

/-- The minor-tick count the scale-marking loops settle on for one
subdivision: the first `mc` in `marker_count` with
`subdivision_length % (mc + 1) == 0` (the `+ 1` leaves a gap between the
last mini-marker and the next scale marker), or `none` when no candidate
passes. -/
def chosen_marker_count (subdivision_length : Nat) : Option Nat :=
  marker_count.find? (fun mc => decide (subdivision_length % (mc + 1) = 0))

/-- Modelled from the spec: §4.4 step 3 / claim C5 say the engine uses
"the first count in that order that evenly divides the subdivision
length", i.e. it tests `subdivision_length % mc == 0` on the count
itself. -/
def spec_chosen_marker_count (subdivision_length : Nat) : Option Nat :=
  marker_count.find? (fun mc => decide (subdivision_length % mc = 0))

/-- The minor-tick pixel positions drawn for subdivision `i` of the
positive-direction x scale loop (src/canvas/axes/axis_x.rs, lines
386-412): with the chosen count `mc`, ticks at
`base + i·len + j·(len/(mc+1))` for `j in 1..=mc`, drawn only while
`i < x_axis_resolution`; nothing when no candidate divides. -/
def minor_marker_positions (base subdivision_length i resolution : Nat) : List Nat :=
  match chosen_marker_count subdivision_length with
  | none => []
  | some mc =>
    if i < resolution then
      (List.range mc).map (fun j =>
        base + (i * subdivision_length + (j + 1) * (subdivision_length / (mc + 1))))
    else []

/-- Claim C5 (counterexample): at subdivision length 9 the claim's rule
(first count dividing the length) picks 9, but the code tests
divisibility by `count + 1` and picks 2 (since 10, 5 and 4 do not
divide 9 but 3 does), drawing 2 minor ticks, not 9. -/
theorem minor_tick_count_counterexample :
    chosen_marker_count 9 = some 2
    ∧ spec_chosen_marker_count 9 = some 9
    ∧ (minor_marker_positions 0 9 0 5).length = 2 := by
  refine ⟨by rfl, by rfl, by rfl⟩

/-- Claim C5 (amended): between adjacent major markers the engine tests
the candidate counts 9, 4, 3, 2, 1 in that priority order and uses the
first `mc` such that `mc + 1` evenly divides the subdivision length
(the extra gap separating the last minor tick from the next major
marker); it then places exactly `mc` ticks, and places none when no
candidate passes. -/
theorem minor_tick_priority_amended :
    (∀ L : Nat,
      (chosen_marker_count L = some 9 ↔ L % 10 = 0)
      ∧ (chosen_marker_count L = some 4 ↔ L % 10 ≠ 0 ∧ L % 5 = 0)
      ∧ (chosen_marker_count L = some 3 ↔ L % 10 ≠ 0 ∧ L % 5 ≠ 0 ∧ L % 4 = 0)
      ∧ (chosen_marker_count L = some 2 ↔
          L % 10 ≠ 0 ∧ L % 5 ≠ 0 ∧ L % 4 ≠ 0 ∧ L % 3 = 0)
      ∧ (chosen_marker_count L = some 1 ↔
          L % 10 ≠ 0 ∧ L % 5 ≠ 0 ∧ L % 4 ≠ 0 ∧ L % 3 ≠ 0 ∧ L % 2 = 0)
      ∧ (chosen_marker_count L = none ↔
          L % 10 ≠ 0 ∧ L % 5 ≠ 0 ∧ L % 4 ≠ 0 ∧ L % 3 ≠ 0 ∧ L % 2 ≠ 0))
    ∧ (∀ base L i resolution mc, i < resolution → chosen_marker_count L = some mc →
        (minor_marker_positions base L i resolution).length = mc)
    ∧ (∀ base L i resolution, chosen_marker_count L = none →
        minor_marker_positions base L i resolution = []) := by
  refine ⟨?_, ?_, ?_⟩
  · intro L
    by_cases h10 : L % 10 = 0 <;> by_cases h5 : L % 5 = 0 <;>
      by_cases h4 : L % 4 = 0 <;> by_cases h3 : L % 3 = 0 <;>
      by_cases h2 : L % 2 = 0 <;>
      simp [chosen_marker_count, marker_count, List.find?, h10, h5, h4, h3, h2]
  · intro base L i resolution mc hlt hmc
    simp [minor_marker_positions, hmc, hlt]
  · intro base L i resolution hnone
    simp [minor_marker_positions, hnone]

/-- Claim C5 witness: the placement part of the amended claim applied at
subdivision length 10 (count 9 is chosen since 10 divides 10) for the
first subdivision of a 5-subdivision axis. -/
theorem minor_tick_priority_amended_witness :
    (minor_marker_positions 0 10 0 5).length = 9 :=
  minor_tick_priority_amended.2.1 0 10 0 5 9 (by decide) (by rfl)

/-- A best-fit sample point as constructed in `find_coordinates`
(src/canvas/best_fit.rs): position, evaluated value, and the symbol it
is emitted with (always `Point` there).  `f32` arithmetic is modelled
over `Rat`. -/
structure DataPointQ where
  x : Rat
  y : Rat
  symbol : DataSymbol
deriving DecidableEq, Repr

/-- `a..=b` over `Int` as a list (empty when `b < a`). -/
def intRangeIncl (a b : Int) : List Int :=
  (List.range (b + 1 - a).toNat).map (fun (k : Nat) => a + (k : Int))

/-- The sampling loop shared by every arm of `BestFit::find_coordinates`
(src/canvas/best_fit.rs, lines 122-349), abstracted over the arm's
evaluation function `f`: iterate `scaled_x` over
`x_min..=(x_max * scale_factor)` — note the *unscaled* lower bound, as
in the source — set `x = scaled_x / scale_factor`, `y = f x`, and keep
the point exactly when `y > y_min && y < y_max` (strict on both ends),
emitting it with the `Point` symbol. -/
def find_coordinates_with (f : Rat → Rat) (x_min x_max y_min y_max scale_factor : Int) :
    List DataPointQ :=
  (intRangeIncl x_min (x_max * scale_factor)).filterMap (fun (scaled_x : Int) =>
    let x : Rat := (scaled_x : Rat) / (scale_factor : Rat)
    let y := f x
    if (y_min : Rat) < y ∧ y < (y_max : Rat) then some ⟨x, y, .Point⟩ else none)

/-- The `Linear` arm's evaluation `y = gradient * x + y_intercept`. -/
def linear_eval (gradient y_intercept : Rat) (x : Rat) : Rat := gradient * x + y_intercept

/-- The `Quadratic` arm's evaluation. -/
def quadratic_eval (intercept linear_coeff quadratic_coeff : Rat) (x : Rat) : Rat :=
  intercept + linear_coeff * x + quadratic_coeff * x ^ 2

/-- The `Cubic` arm's evaluation. -/
def cubic_eval (intercept linear_coeff quadratic_coeff cubic_coeff : Rat) (x : Rat) : Rat :=
  intercept + linear_coeff * x + quadratic_coeff * x ^ 2 + cubic_coeff * x ^ 3

/-- Modelled from the spec: §4.6 / claim C6 describe the sampler as
taking "the sampled x values x_min, x_min + 1/scale_factor, ..., x_max"
(so `scaled_x` runs over `x_min*scale_factor ..= x_max*scale_factor`)
and emitting a point wherever `y` falls within the closed interval
`[y_min, y_max]`. -/
def spec_find_coordinates_with (f : Rat → Rat)
    (x_min x_max y_min y_max scale_factor : Int) : List DataPointQ :=
  (intRangeIncl (x_min * scale_factor) (x_max * scale_factor)).filterMap
    (fun (scaled_x : Int) =>
    let x : Rat := (scaled_x : Rat) / (scale_factor : Rat)
    let y := f x
    if (y_min : Rat) ≤ y ∧ y ≤ (y_max : Rat) then some ⟨x, y, .Point⟩ else none)

/-- Claim C6 (counterexample): for `Linear{gradient 1, intercept 0}`
over `x ∈ [1, 2]`, `y ∈ [0, 10]`, scale factor 2, the code samples
`scaled_x ∈ 1..=4` and emits the x values `1/2, 1, 3/2, 2` — the first
of which lies below `x_min = 1` — whereas the claim's sampling grid is
`1, 3/2, 2`.  And with `y ∈ [1, 3]` at scale factor 1 over `x ∈ [1, 1]`
the single sample has `y = 1 = y_min` and is dropped by the strict
filter, while the claim's closed interval keeps it. -/
theorem best_fit_sampling_counterexample :
    (find_coordinates_with (linear_eval 1 0) 1 2 0 10 2).map DataPointQ.x =
      [1 / 2, 1, 3 / 2, 2]
    ∧ (spec_find_coordinates_with (linear_eval 1 0) 1 2 0 10 2).map DataPointQ.x =
      [1, 3 / 2, 2]
    ∧ ((1 : Rat) / 2 < 1)
    ∧ (find_coordinates_with (linear_eval 1 0) 1 1 1 3 1).map DataPointQ.x = []
    ∧ (spec_find_coordinates_with (linear_eval 1 0) 1 1 1 3 1).map DataPointQ.x = [1] := by
  have h1 : intRangeIncl 1 4 = [1, 2, 3, 4] := by rfl
  have h2 : intRangeIncl 2 4 = [2, 3, 4] := by rfl
  have h3 : intRangeIncl 1 1 = [1] := by rfl
  refine ⟨?_, ?_, by norm_num, ?_, ?_⟩ <;>
    norm_num [find_coordinates_with, spec_find_coordinates_with, h1, h2, h3,
      linear_eval, List.filterMap_cons]

lemma mem_intRangeIncl (a b k : Int) : k ∈ intRangeIncl a b ↔ a ≤ k ∧ k ≤ b := by
  constructor
  · intro h
    rw [intRangeIncl] at h
    obtain ⟨x, hx, hk⟩ := List.mem_map.mp h
    rw [List.mem_range] at hx
    omega
  · intro h
    rw [intRangeIncl]
    refine List.mem_map.mpr ⟨(k - a).toNat, ?_, ?_⟩
    · rw [List.mem_range]
      omega
    · omega

/-- Claim C6 (amended): for every evaluation function and bounds, the
emitted points are exactly the samples `x = scaled_x / scale_factor` for
integer `scaled_x` with `x_min ≤ scaled_x ≤ x_max * scale_factor` (so
the grid starts at `x_min / scale_factor`, not at `x_min`) whose
`y = f(x)` lies strictly inside `(y_min, y_max)`; such points carry the
`Point` symbol, and samples on or outside the y bounds are dropped, not
clipped. -/
theorem best_fit_sampling_amended :
    ∀ (f : Rat → Rat) (x_min x_max y_min y_max scale_factor : Int) (p : DataPointQ),
      p ∈ find_coordinates_with f x_min x_max y_min y_max scale_factor ↔
        ∃ k : Int, x_min ≤ k ∧ k ≤ x_max * scale_factor ∧
          p.x = (k : Rat) / (scale_factor : Rat) ∧ p.y = f p.x ∧
          (y_min : Rat) < p.y ∧ p.y < (y_max : Rat) ∧ p.symbol = .Point := by
  intro f x_min x_max y_min y_max scale_factor p
  rw [find_coordinates_with, List.mem_filterMap]
  constructor
  · rintro ⟨scaled_x, hmem, hp⟩
    rw [mem_intRangeIncl] at hmem
    by_cases hc : (y_min : Rat) < f ((scaled_x : Rat) / (scale_factor : Rat))
        ∧ f ((scaled_x : Rat) / (scale_factor : Rat)) < (y_max : Rat)
    · rw [if_pos hc] at hp
      obtain rfl := Option.some.inj hp
      exact ⟨scaled_x, hmem.1, hmem.2, rfl, rfl, hc.1, hc.2, rfl⟩
    · rw [if_neg hc] at hp
      exact absurd hp (by simp)
  · rintro ⟨k, hk1, hk2, hx, hy, hy1, hy2, hsym⟩
    refine ⟨k, (mem_intRangeIncl x_min (x_max * scale_factor) k).mpr ⟨hk1, hk2⟩, ?_⟩
    rcases p with ⟨px, py, psym⟩
    simp only at hx hy hy1 hy2 hsym
    subst hx
    subst hy
    subst hsym
    rw [if_pos ⟨hy1, hy2⟩]

/-- The abort of a fatal `std::process::exit(1)`. -/
inductive ProcFatal
  | exitOne
deriving DecidableEq, Repr

/-- Embedding of the `BestFit::Exponential` arm of `find_coordinates`
(src/canvas/best_fit.rs, lines 238-268): reject a non-positive base
with a fatal process exit *before* the sampling loop, otherwise sample
`y = constant * base^(power*x) + vertical_shift`.  The `f32` `powf` is
passed in as a parameter. -/
def exponential_find_coordinates (powf : Rat → Rat → Rat)
    (constant base power vertical_shift : Rat)
    (x_min x_max y_min y_max scale_factor : Int) :
    Except ProcFatal (List DataPointQ) :=
  if base ≤ 0 then .error .exitOne
  else
    .ok (find_coordinates_with
      (fun x => constant * powf base (power * x) + vertical_shift)
      x_min x_max y_min y_max scale_factor)

/-- Claim C7: for every `Exponential` best-fit specification with
`base ≤ 0`, `find_coordinates` terminates the process with a fatal
error before sampling any point; for `base > 0` it proceeds to the
normal sampling loop. -/
theorem exponential_base_guard :
    ∀ (powf : Rat → Rat → Rat) (constant base power vertical_shift : Rat)
      (x_min x_max y_min y_max scale_factor : Int),
      (base ≤ 0 →
        exponential_find_coordinates powf constant base power vertical_shift
          x_min x_max y_min y_max scale_factor = .error .exitOne)
      ∧ (0 < base →
        exponential_find_coordinates powf constant base power vertical_shift
          x_min x_max y_min y_max scale_factor =
        .ok (find_coordinates_with
          (fun x => constant * powf base (power * x) + vertical_shift)
          x_min x_max y_min y_max scale_factor)) := by
  intro powf constant base power vertical_shift x_min x_max y_min y_max scale_factor
  constructor
  · intro h
    rw [exponential_find_coordinates, if_pos h]
  · intro h
    rw [exponential_find_coordinates, if_neg (not_le.mpr h)]

/-- Claim C7 witness: the guard applied at base `-1` (rejected) and at
base `1` (sampled) with a concrete `powf`. -/
theorem exponential_base_guard_witness :
    exponential_find_coordinates (fun _ _ => 0) 1 (-1) 1 0 0 1 0 1 1 = .error .exitOne
    ∧ exponential_find_coordinates (fun _ _ => 0) 1 1 1 0 0 1 0 1 1 =
      .ok (find_coordinates_with (fun x => 1 * (fun _ _ => (0 : Rat)) 1 (1 * x) + 0)
        0 1 0 1 1) :=
  ⟨(exponential_base_guard (fun _ _ => 0) 1 (-1) 1 0 0 1 0 1 1).1 (by norm_num),
   (exponential_base_guard (fun _ _ => 0) 1 1 1 0 0 1 0 1 1).2 (by norm_num)⟩

/-- One legend row, mirroring `struct LegendField` (src/canvas/legend.rs,
lines 17-29).  The colour field plays no part in layout and is omitted. -/
structure LegendField where
  symbol : DataSymbol
  symbol_radius : Nat
  symbol_thickness : Nat
  name : String
deriving DecidableEq, Repr

/-- The layout computed by `build_legend` (src/canvas/legend.rs, lines
31-81): per row the symbol position and the text position.  The glyph
height of a row's label — `get_maximum_height_of_glyphs(create_glyphs
(font_size, name, font))`, a font-service call — is abstracted as
`heightOf`.  `none` models the `.unwrap()` panic of the
`max_by` maximum-radius computation on an empty field list. -/
def build_legend_layout (heightOf : String → Nat) (origin : Nat × Nat)
    (fields : List LegendField) : Option (List ((Nat × Nat) × (Nat × Nat))) :=
  match (fields.map LegendField.symbol_radius).max? with
  | none => none
  | some m =>
    let max_radius := m + 2
    some (fields.enum.map (fun p =>
      let height := heightOf p.2.name
      ((origin.1 + (max_radius + 1), origin.2 + p.1 * height * 2),
       (origin.1 + (max_radius + 1) * 3, origin.2 + p.1 * height * 2))))

/-- The vertical symbol offsets of the legend rows:
`origin.1 + i * height_of_row_i * 2` for the `i`-th field — each row is
spaced by *its own* label's glyph height, not by the tallest among all
fields. -/
def legend_y_offsets (heightOf : String → Nat) (originY : Nat)
    (fields : List LegendField) : List Nat :=
  fields.enum.map (fun p => originY + p.1 * heightOf p.2.name * 2)

/-- Embedding of `get_legend_fields` (src/scatter/data.rs, lines
272-284), restricted to the `DataSet` fields that feed the legend. -/
structure DataSetM where
  name : String
  symbol : DataSymbol
  symbol_radius : Nat
  symbol_thickness : Nat
deriving DecidableEq, Repr

/-- One `LegendField` per data set, in order. -/
def get_legend_fields (data_set : List DataSetM) : List LegendField :=
  data_set.map (fun s => ⟨s.symbol, s.symbol_radius, s.symbol_thickness, s.name⟩)

/-- Claim C9: `build_legend` panics on an empty field list (the
`max_by(...)` of an empty iterator unwraps `None`) and only then: any
non-empty field list yields a layout.  With `has_legend = true` and zero
data sets, `scatter_builder` passes `get_legend_fields([]) = []` to
`build_legend`, so that configuration aborts instead of drawing an
empty legend. -/
theorem build_legend_empty_aborts :
    (∀ (heightOf : String → Nat) (origin : Nat × Nat),
      build_legend_layout heightOf origin [] = none)
    ∧ get_legend_fields [] = []
    ∧ (∀ (heightOf : String → Nat) (origin : Nat × Nat) (fields : List LegendField),
        fields ≠ [] → (build_legend_layout heightOf origin fields).isSome = true) := by
  refine ⟨fun _ _ => rfl, rfl, ?_⟩
  intro heightOf origin fields hne
  cases hmx : (fields.map LegendField.symbol_radius).max? with
  | none =>
    exact absurd (List.map_eq_nil_iff.mp (List.max?_eq_none_iff.mp hmx)) hne
  | some m =>
    simp [build_legend_layout, hmx]

/-- Claim C9 witness: the non-empty part applied to a one-row legend. -/
theorem build_legend_empty_aborts_witness :
    (build_legend_layout (fun _ => 1) (0, 0) [⟨.Point, 1, 0, "a"⟩]).isSome = true :=
  build_legend_empty_aborts.2.2 (fun _ => 1) (0, 0) [⟨.Point, 1, 0, "a"⟩] (by decide)

/-- A concrete glyph-height oracle: the label "aa" measures 5 pixels
tall, anything else 1 pixel. -/
def legend_demo_height : String → Nat := fun s => if s = "aa" then 5 else 1

/-- Three legend rows whose labels measure 5, 5 and 1 pixels. -/
def legend_demo_fields : List LegendField :=
  [⟨.Point, 1, 0, "aa"⟩, ⟨.Point, 1, 0, "aa"⟩, ⟨.Point, 1, 0, "b"⟩]

/-- Claim C8 (counterexample): `build_legend` spaces row `i` by
`i * 2 * (height of row i's own label)`, not by twice the tallest label
among all fields.  With label heights 5, 5, 1 the symbol y offsets come
out as 0, 10, 4 — not monotonically increasing in the row index. -/
theorem legend_spacing_counterexample :
    (build_legend_layout legend_demo_height (0, 0) legend_demo_fields).map
      (List.map (fun r => r.1.2)) = some [0, 10, 4]
    ∧ ¬ List.Chain' (fun a b => a < b) [0, 10, 4] := by
  refine ⟨by rfl, fun hch => ?_⟩
  rw [List.chain'_cons, List.chain'_cons] at hch
  exact absurd hch.2.1 (by decide)

lemma legend_y_offsets_length (heightOf : String → Nat) (originY : Nat)
    (fields : List LegendField) :
    (legend_y_offsets heightOf originY fields).length = fields.length := by
  simp [legend_y_offsets]

lemma legend_y_offsets_get (heightOf : String → Nat) (originY : Nat)
    (fields : List LegendField) (i : Nat)
    (hi : i < (legend_y_offsets heightOf originY fields).length)
    (hif : i < fields.length) :
    (legend_y_offsets heightOf originY fields).get ⟨i, hi⟩ =
      originY + i * heightOf ((fields.get ⟨i, hif⟩).name) * 2 := by
  simp [legend_y_offsets, List.get_eq_getElem, List.getElem_map, List.getElem_enum]

/-- Claim C8 (amended): for every non-empty field list `build_legend`
lays out row `i`'s symbol at vertical offset
`origin.y + i * 2 * h_i` where `h_i` is the glyph height of row `i`'s
*own* label; when every label has the same positive glyph height `h`
the offsets are strictly increasing in the row index with constant
spacing `2 * h` between consecutive rows. -/
theorem legend_spacing_amended :
    ∀ (heightOf : String → Nat) (origin : Nat × Nat) (fields : List LegendField),
      fields ≠ [] →
      ∃ rows, build_legend_layout heightOf origin fields = some rows ∧
        rows.map (fun r => r.1.2) = legend_y_offsets heightOf origin.2 fields ∧
        ∀ h : Nat, 0 < h → (∀ f ∈ fields, heightOf f.name = h) →
          List.Chain' (fun a b => a < b) (legend_y_offsets heightOf origin.2 fields) ∧
          ∀ (i : Nat) (hi : i + 1 < (legend_y_offsets heightOf origin.2 fields).length),
            (legend_y_offsets heightOf origin.2 fields).get ⟨i + 1, hi⟩ =
              (legend_y_offsets heightOf origin.2 fields).get
                ⟨i, Nat.lt_of_succ_lt hi⟩ + 2 * h := by
  intro heightOf origin fields hne
  cases hmx : (fields.map LegendField.symbol_radius).max? with
  | none =>
    exact absurd (List.map_eq_nil_iff.mp (List.max?_eq_none_iff.mp hmx)) hne
  | some m =>
    refine ⟨_, by rw [build_legend_layout, hmx], ?_, ?_⟩
    · simp [legend_y_offsets, List.map_map, Function.comp]
    · intro h hpos huni
      have hget : ∀ (i : Nat) (hi : i < (legend_y_offsets heightOf origin.2 fields).length),
          (legend_y_offsets heightOf origin.2 fields).get ⟨i, hi⟩ =
            origin.2 + i * h * 2 := by
        intro i hi
        have hif : i < fields.length := by
          rwa [legend_y_offsets_length] at hi
        rw [legend_y_offsets_get heightOf origin.2 fields i hi hif,
          huni _ (List.get_mem fields i hif)]
      constructor
      · rw [List.chain'_iff_get]
        intro i hi
        rw [hget i (by omega), hget (i + 1) (by omega)]
        have hstep : (i + 1) * h * 2 = i * h * 2 + h * 2 := by ring
        omega
      · intro i hi
        rw [hget (i + 1) hi, hget i (Nat.lt_of_succ_lt hi)]
        have hstep : (i + 1) * h * 2 = i * h * 2 + h * 2 := by ring
        omega

/-- Claim C8 witness: the amended layout applied to a concrete two-row
legend whose labels both measure 3 pixels. -/
theorem legend_spacing_amended_witness :
    ∃ rows, build_legend_layout (fun _ => 3) (0, 0)
        [⟨.Point, 1, 0, "p"⟩, ⟨.Cross, 2, 0, "q"⟩] = some rows ∧
      rows.map (fun r => r.1.2) =
        legend_y_offsets (fun _ => 3) 0 [⟨.Point, 1, 0, "p"⟩, ⟨.Cross, 2, 0, "q"⟩] ∧
      ∀ h : Nat, 0 < h →
        (∀ f ∈ [(⟨.Point, 1, 0, "p"⟩ : LegendField), ⟨.Cross, 2, 0, "q"⟩],
          (fun (_ : String) => 3) f.name = h) →
        List.Chain' (fun a b => a < b)
          (legend_y_offsets (fun _ => 3) 0 [⟨.Point, 1, 0, "p"⟩, ⟨.Cross, 2, 0, "q"⟩]) ∧
        ∀ (i : Nat) (hi : i + 1 <
            (legend_y_offsets (fun _ => 3) 0
              [⟨.Point, 1, 0, "p"⟩, ⟨.Cross, 2, 0, "q"⟩]).length),
          (legend_y_offsets (fun _ => 3) 0
            [⟨.Point, 1, 0, "p"⟩, ⟨.Cross, 2, 0, "q"⟩]).get ⟨i + 1, hi⟩ =
            (legend_y_offsets (fun _ => 3) 0
              [⟨.Point, 1, 0, "p"⟩, ⟨.Cross, 2, 0, "q"⟩]).get
              ⟨i, Nat.lt_of_succ_lt hi⟩ + 2 * h :=
  legend_spacing_amended (fun _ => 3) (0, 0)
    [⟨.Point, 1, 0, "p"⟩, ⟨.Cross, 2, 0, "q"⟩] (by decide)

/-- The integer pixel bounding box of a rasterised glyph (the payload of
rusttype's `pixel_bounding_box()`). -/
structure GlyphBoundingBox where
  min_x : Int
  min_y : Int
  max_x : Int
  max_y : Int
deriving DecidableEq, Repr

/-- A positioned glyph as the measurement helpers see it: only its
optional pixel bounding box matters (`None` for glyphs with no pixels,
such as a space). -/
structure PositionedGlyphM where
  pixel_bounding_box : Option GlyphBoundingBox
deriving DecidableEq, Repr

/-- Embedding of `get_maximum_height_of_glyphs` (src/canvas/glyphs.rs,
lines 98-108): `glyphs.first().map(|g| bbox.unwrap().min.y).unwrap()`
and the same on `last()` — each `unwrap` abort is `none`.  The final
`as u32` cast does not affect the abort behaviour and the difference is
kept as `Int`. -/
def get_maximum_height_of_glyphs (glyphs : List PositionedGlyphM) : Option Int :=
  match glyphs.head? with
  | none => none
  | some g =>
    match g.pixel_bounding_box with
    | none => none
    | some bb_first =>
      match glyphs.getLast? with
      | none => none
      | some gl =>
        match gl.pixel_bounding_box with
        | none => none
        | some bb_last => some (bb_last.max_y - bb_first.min_y)

/-- Embedding of `get_width_of_glyphs` (src/canvas/glyphs.rs, lines
110-120), the same unwrap chain on `min.x` / `max.x`. -/
def get_width_of_glyphs (glyphs : List PositionedGlyphM) : Option Int :=
  match glyphs.head? with
  | none => none
  | some g =>
    match g.pixel_bounding_box with
    | none => none
    | some bb_first =>
      match glyphs.getLast? with
      | none => none
      | some gl =>
        match gl.pixel_bounding_box with
        | none => none
        | some bb_last => some (bb_last.max_x - bb_first.min_x)

/-- Embedding of `get_title_offset` (src/canvas/title.rs, lines 25-59):
the width and height blocks inline exactly the two unwrap chains above,
then the offset is `((canvas_width / 2) - (width / 2), height)`. -/
def get_title_offset (glyphs : List PositionedGlyphM) (canvas_width : Nat) :
    Option (Int × Int) :=
  match get_width_of_glyphs glyphs with
  | none => none
  | some width =>
    match get_maximum_height_of_glyphs glyphs with
    | none => none
    | some height => some ((canvas_width : Int) / 2 - width / 2, height)

/-- The abort condition shared by the glyph measurement helpers: an
empty glyph list, or a first or last glyph with no pixel bounding box. -/
def glyph_measurement_aborts (glyphs : List PositionedGlyphM) : Prop :=
  glyphs = []
  ∨ (∃ g, glyphs.head? = some g ∧ g.pixel_bounding_box = none)
  ∨ (∃ g, glyphs.getLast? = some g ∧ g.pixel_bounding_box = none)

lemma height_eq_none_iff (glyphs : List PositionedGlyphM) :
    get_maximum_height_of_glyphs glyphs = none ↔ glyph_measurement_aborts glyphs := by
  cases hh : glyphs.head? with
  | none =>
    have : glyphs = [] := List.head?_eq_none_iff.mp hh
    subst this
    simp [get_maximum_height_of_glyphs, glyph_measurement_aborts]
  | some g =>
    have hne : glyphs ≠ [] := by
      intro h
      subst h
      exact absurd hh (by simp)
    cases hb : g.pixel_bounding_box with
    | none =>
      simp only [get_maximum_height_of_glyphs, hh, hb]
      exact iff_of_true trivial (Or.inr (Or.inl ⟨g, hh, hb⟩))
    | some bb =>
      cases hl : glyphs.getLast? with
      | none => exact absurd (List.getLast?_eq_none_iff.mp hl) hne
      | some gl =>
        cases hbl : gl.pixel_bounding_box with
        | none =>
          simp only [get_maximum_height_of_glyphs, hh, hb, hl, hbl]
          exact iff_of_true trivial (Or.inr (Or.inr ⟨gl, hl, hbl⟩))
        | some bbl =>
          simp only [get_maximum_height_of_glyphs, hh, hb, hl, hbl]
          refine iff_of_false (by simp) ?_
          rintro (h | ⟨g2, hg2, hb2⟩ | ⟨g2, hg2, hb2⟩)
          · exact hne h
          · rw [hh] at hg2
            obtain rfl := Option.some.inj hg2
            rw [hb] at hb2
            exact Option.noConfusion hb2
          · rw [hl] at hg2
            obtain rfl := Option.some.inj hg2
            rw [hbl] at hb2
            exact Option.noConfusion hb2

lemma width_eq_none_iff (glyphs : List PositionedGlyphM) :
    get_width_of_glyphs glyphs = none ↔ glyph_measurement_aborts glyphs := by
  cases hh : glyphs.head? with
  | none =>
    have : glyphs = [] := List.head?_eq_none_iff.mp hh
    subst this
    simp [get_width_of_glyphs, glyph_measurement_aborts]
  | some g =>
    have hne : glyphs ≠ [] := by
      intro h
      subst h
      exact absurd hh (by simp)
    cases hb : g.pixel_bounding_box with
    | none =>
      simp only [get_width_of_glyphs, hh, hb]
      exact iff_of_true trivial (Or.inr (Or.inl ⟨g, hh, hb⟩))
    | some bb =>
      cases hl : glyphs.getLast? with
      | none => exact absurd (List.getLast?_eq_none_iff.mp hl) hne
      | some gl =>
        cases hbl : gl.pixel_bounding_box with
        | none =>
          simp only [get_width_of_glyphs, hh, hb, hl, hbl]
          exact iff_of_true trivial (Or.inr (Or.inr ⟨gl, hl, hbl⟩))
        | some bbl =>
          simp only [get_width_of_glyphs, hh, hb, hl, hbl]
          refine iff_of_false (by simp) ?_
          rintro (h | ⟨g2, hg2, hb2⟩ | ⟨g2, hg2, hb2⟩)
          · exact hne h
          · rw [hh] at hg2
            obtain rfl := Option.some.inj hg2
            rw [hb] at hb2
            exact Option.noConfusion hb2
          · rw [hl] at hg2
            obtain rfl := Option.some.inj hg2
            rw [hbl] at hb2
            exact Option.noConfusion hb2

/-- Claim C10: `get_maximum_height_of_glyphs` and `get_width_of_glyphs`
abort exactly when the glyph list is empty or its first or last glyph
has no pixel bounding box (an empty or all-whitespace string), and
`get_title_offset` — hence title placement — aborts in exactly the same
situations instead of reserving zero space. -/
theorem glyph_measurement_abort_characterisation :
    ∀ (glyphs : List PositionedGlyphM) (canvas_width : Nat),
      (get_maximum_height_of_glyphs glyphs = none ↔ glyph_measurement_aborts glyphs)
      ∧ (get_width_of_glyphs glyphs = none ↔ glyph_measurement_aborts glyphs)
      ∧ (get_title_offset glyphs canvas_width = none ↔ glyph_measurement_aborts glyphs) := by
  intro glyphs canvas_width
  refine ⟨height_eq_none_iff glyphs, width_eq_none_iff glyphs, ?_⟩
  cases hw : get_width_of_glyphs glyphs with
  | none =>
    exact iff_of_true (by rw [get_title_offset, hw]) ((width_eq_none_iff glyphs).mp hw)
  | some width =>
    cases hht : get_maximum_height_of_glyphs glyphs with
    | none =>
      exact iff_of_true (by rw [get_title_offset, hw, hht])
        ((height_eq_none_iff glyphs).mp hht)
    | some height =>
      refine iff_of_false (by rw [get_title_offset, hw, hht]; exact Option.noConfusion) ?_
      intro habort
      rw [← width_eq_none_iff glyphs] at habort
      rw [hw] at habort
      exact Option.noConfusion habort

/-- Claim C3 witness: the never-aborts part applied to a concrete
single-pixel symbol draw on a 10×10 canvas. -/
theorem draw_point_never_aborts_amended_witness :
    writes_abort 10 10 (draw_point_writes [(3, 3)] (3, 3) none none) = false :=
  draw_point_never_aborts_amended.1 10 10 [(3, 3)] (3, 3) none none

/-- Claim C6 witness: the sampling characterisation applied to the
identity curve over `x ∈ [0, 1]`, `y ∈ (-1, 1)`, scale factor 1, at the
sample `scaled_x = 0`. -/
theorem best_fit_sampling_amended_witness :
    (⟨0, 0, .Point⟩ : DataPointQ) ∈ find_coordinates_with (fun x => x) 0 1 (-1) 1 1 :=
  (best_fit_sampling_amended (fun x => x) 0 1 (-1) 1 1 ⟨0, 0, .Point⟩).mpr
    ⟨0, le_refl 0, by norm_num, by norm_num, rfl, by norm_num, by norm_num, rfl⟩

/-- Claim C10 witness: the characterisation applied to the empty glyph
list, showing title placement aborts there. -/
theorem glyph_measurement_abort_characterisation_witness :
    get_title_offset [] 100 = none :=
  ((glyph_measurement_abort_characterisation [] 100).2.2).mpr (Or.inl rfl)
